import Mathlib

/-!
Verification development for `vid2audconverter.py`, a YouTube-to-MP3
batch converter.  The Python program is shallowly embedded: the external
tool (`yt-dlp`) and the filesystem appear as explicit oracle parameters,
machine state is passed explicitly, and Python exceptions become an
`Except` error type.  Every definition mirrors the corresponding lines of
the source file.
-/

namespace Vid2Aud

/-! ### Python string primitives -/

/-- ASCII whitespace characters recognised by Python `str.strip()`
(space, tab, newline, carriage return, vertical tab, form feed).
Unicode whitespace is not modelled; no claim depends on it. -/
def isPyWs (c : Char) : Bool :=
  c = ' ' || c = '\t' || c = '\n' || c = '\r' || c = '\x0b' || c = '\x0c'

/-- Strip Python whitespace from both ends of a character list, as
`str.strip()` does. -/
def stripList (l : List Char) : List Char :=
  ((l.dropWhile isPyWs).reverse.dropWhile isPyWs).reverse

/-- Model of Python `s.strip()`. -/
def pyStrip (s : String) : String := String.mk (stripList s.data)

/-- `subOf needle hay = true` iff `needle` occurs as a contiguous
substring of `hay`; models Python `needle in hay` for strings. -/
def subOf (needle : List Char) : List Char → Bool
  | [] => needle.isEmpty
  | c :: t => needle.isPrefixOf (c :: t) || subOf needle t

/-- Python `needle in hay` on strings. -/
def strIn (needle hay : String) : Bool := subOf needle.data hay.data

/-- POSIX `os.path.join` for a relative second component (the only way
the source calls it). -/
def pathJoin (a b : String) : String := if a.isEmpty then b else a ++ "/" ++ b

/-- Python `set.add`: the set is modelled as a duplicate-free list in
insertion order. -/
def setAdd (s : List String) (x : String) : List String :=
  if x ∈ s then s else s ++ [x]

/-! ### Error taxonomy

Python exception values raised by the program.  `calledProcessError`
models `subprocess.CalledProcessError` from a `check=True` run with
`capture_output=True` (the spec calls it `ExternalToolError`);
`fileNotFound` models `FileNotFoundError`; `environmentError` models
`EnvironmentError` from the dependency check. -/

inductive PyError where
  | fileNotFound (msg : String)
  | environmentError (msg : String)
  | calledProcessError (returncode : Nat) (stdout stderr : String)
  | otherError (msg : String)
deriving DecidableEq

/-- Python `str(e)` on the exceptions above.  For
`CalledProcessError` Python renders
`Command '<cmd>' returned non-zero exit status <n>.`; the command list
is a fixed `yt-dlp` invocation and is elided from the model. -/
def pyStr : PyError → String
  | .fileNotFound m => m
  | .environmentError m => m
  | .calledProcessError rc _ _ =>
      "Command returned non-zero exit status " ++ toString rc ++ "."
  | .otherError m => m

/-- Outcome of one `subprocess.run` invocation of the external tool. -/
structure RunOutcome where
  exitCode : Nat
  stdout : String
  stderr : String

/-! ### Filename sanitizer and title lookup (source lines 23-40) -/

/-- The literal `valid_chars` string from line 35 of the source. -/
def valid_chars : List Char :=
  "-_.() abcdefghijklmnopqrstuvwxyzABCDEFGHIJKLMNOPQRSTUVWXYZ0123456789".data

/-- The character-filtering step of line 36:
`"".join(c for c in title if c in valid_chars)`. -/
def sanitizeTitle (s : String) : String :=
  String.mk (s.data.filter (fun c => valid_chars.contains c))

/-- `get_video_title` (lines 23-40): the title subprocess result is the
oracle argument.  On exit 0 the stdout is stripped and sanitized; on a
nonzero exit (`CalledProcessError`) the fallback `"video"` is returned. -/
def get_video_title (r : RunOutcome) : String :=
  if r.exitCode = 0 then sanitizeTitle (pyStrip r.stdout) else "video"

/-! ### URL validator (source lines 92-98)

`urllib.parse.urlparse` is modelled down to the `netloc` component,
following CPython 3.10 `urlsplit`: leading C0-control/space characters
are stripped, tab/CR/LF are removed everywhere, a scheme prefix
`<scheme>:` (nonempty, all characters in `scheme_chars`) is dropped,
the netloc is the text between a leading `//` and the next `/`, `?` or
`#`, and a netloc with an unmatched `[` or `]` raises `ValueError`
(modelled as `none`).  The NFKC check on non-ASCII netlocs is omitted;
no claim involves non-ASCII input. -/

def scheme_chars : List Char :=
  "abcdefghijklmnopqrstuvwxyzABCDEFGHIJKLMNOPQRSTUVWXYZ0123456789+-.".data

/-- Index of the first `':'`, as Python `url.find(':')`. -/
def findColonIdx : List Char → Option Nat
  | [] => none
  | c :: t => if c = ':' then some 0 else (findColonIdx t).map (· + 1)

/-- Drop a leading `<scheme>:` when present and wellformed. -/
def splitScheme (l : List Char) : List Char :=
  match findColonIdx l with
  | some i =>
      if i ≠ 0 ∧ (l.take i).all (fun c => scheme_chars.contains c) = true then
        l.drop (i + 1)
      else l
  | none => l

/-- The netloc of the remainder: text after a leading `//` up to the
first `/`, `?` or `#`; empty when there is no `//`. -/
def netlocSplit (l : List Char) : List Char :=
  if l.take 2 = ['/', '/'] then
    (l.drop 2).takeWhile (fun c => !(c = '/' || c = '?' || c = '#'))
  else []

/-- The `netloc` attribute of `urlparse(url)`; `none` models a raised
`ValueError`. -/
def urlsplitNetloc (url : String) : Option String :=
  let u := (url.data.dropWhile (fun c => c.toNat ≤ 0x20)).filter
    (fun c => !(c = '\t' || c = '\r' || c = '\n'))
  let n := netlocSplit (splitScheme u)
  if ('[' ∈ n ∧ ']' ∉ n) ∨ (']' ∈ n ∧ '[' ∉ n) then none
  else some (String.mk n)

/-- `is_valid_youtube_url` (lines 92-98): true when the parsed netloc
contains `"youtube.com"` or `"youtu.be"` as a substring; a parse error
yields `False` via the bare `except`. -/
def is_valid_youtube_url (url : String) : Bool :=
  match urlsplitNetloc url with
  | some netloc => strIn "youtube.com" netloc || strIn "youtu.be" netloc
  | none => false

/-! ### Download-convert executor (source lines 42-90)

The effects of `download_audio` on the local filesystem are modelled
explicitly: `fs` is the set of existing file paths (a list), and the
external subprocess together with the resulting temp-directory listing
is the oracle `DlEnv`.  The code touches the filesystem only after the
subprocess run succeeds. -/

/-- `tempfile.gettempdir()`, a fixed directory. -/
def temp_dir : String := "/tmp"

/-- Oracle for one `download_audio` call: the subprocess outcome, the
temp-directory listing `os.listdir(temp_dir)` observed after the run,
and `os.getpid()`. -/
structure DlEnv where
  run : RunOutcome
  tempListing : List String
  pid : Nat

/-- `download_audio` (lines 42-90).  A nonzero exit of the subprocess
raises `CalledProcessError` carrying the captured stdout/stderr (lines
63-66, re-raised at 84-87) before any filesystem write.  Otherwise the
first temp file matching the `temp_audio_<pid>` prefix is moved onto
`output_audio` (overwriting), and a missing match or missing destination
raises `FileNotFoundError`.  Returns the outcome and the new filesystem. -/
def download_audio (env : DlEnv) (fs : List String)
    (_youtube_url output_audio : String) : Except PyError Unit × List String :=
  if env.run.exitCode ≠ 0 then
    (.error (.calledProcessError env.run.exitCode env.run.stdout env.run.stderr), fs)
  else
    let pre := "temp_audio_" ++ toString env.pid
    match env.tempListing.filter (fun f => pre.data.isPrefixOf f.data) with
    | [] => (.error (.fileNotFound "Downloaded file not found in temp directory"), fs)
    | f :: _ =>
      let src := pathJoin temp_dir f
      let fs2 := setAdd (fs.filter (fun p => p ≠ src)) output_audio
      if output_audio ∈ fs2 then (.ok (), fs2)
      else (.error (.fileNotFound "Downloaded audio file not found"), fs2)

/-! ### Batch reader (source lines 100-121) -/

/-- The list comprehension of line 109:
`[line.strip() for line in f if line.strip()]` — every line is
stripped, blank lines are dropped. -/
def consideredUrls (fileLines : List String) : List String :=
  (fileLines.map pyStrip).filter (fun l => !l.isEmpty)

/-- One step of the classification loop of lines 111-115. -/
def classifyStep (acc : List String × List String) (url : String) :
    List String × List String :=
  if is_valid_youtube_url url then (setAdd acc.1 url, acc.2)
  else (acc.1, acc.2 ++ [url])

/-- The observable outcome of `process_url_file`: the returned
`unique_urls` set (a duplicate-free list in insertion order) and the
`invalid_urls` list whose length is printed at line 119. -/
structure ProcResult where
  unique_urls : List String
  invalid_urls : List String
deriving DecidableEq

/-- `process_url_file` (lines 100-121), full observable outcome.  The
file system is the oracle `files`; a missing path raises
`FileNotFoundError` (lines 102-103) before any content is read. -/
def process_url_file_run (files : String → Option (List String))
    (file_path : String) : Except PyError ProcResult :=
  match files file_path with
  | none => .error (.fileNotFound ("File not found: " ++ file_path))
  | some fileLines =>
      let acc := (consideredUrls fileLines).foldl classifyStep ([], [])
      .ok ⟨acc.1, acc.2⟩

/-- The value `process_url_file` actually returns (line 121): the
`unique_urls` set only. -/
def process_url_file (files : String → Option (List String))
    (file_path : String) : Except PyError (List String) :=
  (process_url_file_run files file_path).map ProcResult.unique_urls

/-! ### Batch runner (source lines 123-139) -/

/-- One entry of the result list built by `batch_download`. -/
structure DownloadResult where
  url : String
  success : Bool
  errorMessage : Option String
deriving DecidableEq

/-- `batch_download` (lines 123-139).  `denv`/`tenv` give the
per-URL subprocess oracles, `dirname` is `os.path.dirname(__file__)`
(the fixed output directory), and the filesystem is threaded through
the sequential loop.  Any exception from an item is caught at the item
boundary and recorded as a failure entry (lines 136-137). -/
def batch_download (denv : String → DlEnv) (tenv : String → RunOutcome)
    (dirname : String) : List String → List String →
    List DownloadResult × List String
  | [], fs => ([], fs)
  | url :: rest, fs =>
    let title := get_video_title (tenv url)
    let output_path := pathJoin dirname (title ++ ".mp3")
    match download_audio (denv url) fs url output_path with
    | (.ok _, fs2) =>
      let next := batch_download denv tenv dirname rest fs2
      (⟨url, true, none⟩ :: next.1, next.2)
    | (.error e, fs2) =>
      let next := batch_download denv tenv dirname rest fs2
      (⟨url, false, some (pyStr e)⟩ :: next.1, next.2)

/-! ### Entry point (source lines 141-194) -/

/-- `check_dependencies` (lines 10-21); the oracle says whether
`shutil.which("yt-dlp")` succeeds. -/
def check_dependencies (ytDlpOnPath : Bool) : Except PyError Unit :=
  if ytDlpOnPath then .ok ()
  else .error (.environmentError
    ("Required programs not found in PATH: yt-dlp\n" ++
     "Please ensure they are installed and added to your system's PATH."))

/-- All external inputs of one run of `main`: dependency presence, the
`-f` argument, the readable text files, the initial filesystem, the
per-URL subprocess oracles, the interactive input line, and the script
directory. -/
structure MainEnv where
  ytDlpOnPath : Bool
  fileArg : Option String
  files : String → Option (List String)
  fs0 : List String
  denv : String → DlEnv
  tenv : String → RunOutcome
  inputLine : String
  scriptDir : String

/-- The body of the `try` block of `main` (lines 146-186): dependency
check, then batch mode over the `-f` file or interactive mode over one
prompted URL. -/
def mainBody (env : MainEnv) : Except PyError Unit :=
  match check_dependencies env.ytDlpOnPath with
  | .error e => .error e
  | .ok _ =>
    match env.fileArg with
    | some path =>
      match process_url_file env.files path with
      | .error e => .error e
      | .ok urls =>
        if urls.isEmpty then .ok ()
        else
          let _ := batch_download env.denv env.tenv env.scriptDir urls env.fs0
          .ok ()
    | none =>
      let youtube_url := pyStrip env.inputLine
      if youtube_url.isEmpty then .ok ()
      else
        let video_title := get_video_title (env.tenv youtube_url)
        let output_audio := pathJoin env.scriptDir (video_title ++ ".mp3")
        (download_audio (env.denv youtube_url) env.fs0 youtube_url output_audio).1

/-- The message printed by the matching `except` clause (lines 188-194).
`FileNotFoundError` is a subclass of `EnvironmentError` (`OSError`) but
the more specific handler comes first. -/
def handlerMessage : PyError → String
  | .fileNotFound m => "File Error: " ++ m
  | .environmentError m => "Environment Error: " ++ m
  | e => "An error occurred: " ++ pyStr e

/-- What a run of `main` leaves behind: the process exit code and the
error message printed by a handler, if any. -/
structure MainResult where
  exitCode : Nat
  errorOutput : Option String
deriving DecidableEq

/-- `main` (lines 141-194): every exception escaping the body is caught
by one of the three handlers and printed; `main` then returns normally,
so the process exits 0. -/
def main (env : MainEnv) : MainResult :=
  match mainBody env with
  | .ok _ => ⟨0, none⟩
  | .error e => ⟨0, some (handlerMessage e)⟩

/-! ### Concrete test fixtures used by the claims -/

/-- Spec-side description of the allowed character set of §4.1:
letters, digits, space, `-`, `_`, `.`, `(`, `)`. -/
def specAllowedChar (c : Char) : Bool :=
  c.isAlpha || c.isDigit || c = ' ' || c = '-' || c = '_' || c = '.' ||
    c = '(' || c = ')'

/-- Three batch URLs for the stubbed-executor scenario. -/
def stubUrls : List String :=
  ["https://youtu.be/u1", "https://youtu.be/u2", "https://youtu.be/u3"]

/-- Executor stub: the external tool exits 1 on the second URL and
succeeds (producing a temp file) on the others. -/
def stubDenv : String → DlEnv := fun u =>
  if u = "https://youtu.be/u2" then ⟨⟨1, "", "network error"⟩, [], 7⟩
  else ⟨⟨0, "", ""⟩, ["temp_audio_7.mp3"], 7⟩

/-- Title stub for the three batch URLs. -/
def stubTenv : String → RunOutcome := fun u =>
  if u = "https://youtu.be/u1" then ⟨0, "First Title\n", ""⟩
  else if u = "https://youtu.be/u3" then ⟨0, "Third Title\n", ""⟩
  else ⟨0, "Second\n", ""⟩

/-- A readable file of one valid URL. -/
def fsA : String → Option (List String) := fun p =>
  if p = "urls.txt" then some ["https://youtu.be/a"] else none

/-- A readable file of one valid URL plus one invalid line. -/
def fsB : String → Option (List String) := fun p =>
  if p = "urls.txt" then some ["https://youtu.be/a", "bad-url"] else none

/-- The four-line batch file of the spec example. -/
def fsC : String → Option (List String) := fun p =>
  if p = "urls.txt" then
    some ["https://youtu.be/a", "", "bad-url", "https://youtu.be/a"]
  else none

/-- The spec example file without its blank line. -/
def fsD : String → Option (List String) := fun p =>
  if p = "urls.txt" then
    some ["https://youtu.be/a", "bad-url", "https://youtu.be/a"]
  else none

/-- An executor environment whose subprocess succeeds and leaves one
matching temp file. -/
def okDlEnv : DlEnv := ⟨⟨0, "", ""⟩, ["temp_audio_7.mp3"], 7⟩

/-- A `main` environment in which the dependency check fails. -/
def noDepEnv : MainEnv :=
  ⟨false, none, fun _ => none, [], fun _ => okDlEnv, fun _ => ⟨0, "", ""⟩,
   "", "out"⟩

/-! ### Helper lemmas -/

theorem dropWhile_head_false (p : Char → Bool) :
    ∀ (l : List Char) {c : Char} {t : List Char},
      l.dropWhile p = c :: t → p c = false := by
  intro l
  induction l with
  | nil => intro c t h; simp [List.dropWhile] at h
  | cons a l ih =>
    intro c t h
    rw [List.dropWhile_cons] at h
    by_cases hp : p a = true
    · rw [if_pos hp] at h; exact ih h
    · rw [if_neg hp] at h
      cases h
      simpa using hp

theorem dropWhile_append_one (p : Char → Bool) (c : Char)
    (hc : p c = false) :
    ∀ xs : List Char, (xs ++ [c]).dropWhile p = xs.dropWhile p ++ [c] := by
  intro xs
  induction xs with
  | nil => simp [List.dropWhile_cons, hc]
  | cons a l ih =>
    simp only [List.cons_append, List.dropWhile_cons]
    by_cases hp : p a = true
    · rw [if_pos hp, if_pos hp, ih]
    · rw [if_neg hp, if_neg hp, List.cons_append]

theorem stripList_head_false {l : List Char} {c : Char}
    (h : (stripList l).head? = some c) : isPyWs c = false := by
  unfold stripList at h
  cases ha : l.dropWhile isPyWs with
  | nil => rw [ha] at h; simp at h
  | cons d t =>
    have hd : isPyWs d = false := dropWhile_head_false _ _ ha
    rw [ha, List.reverse_cons, dropWhile_append_one _ _ hd,
      List.head?_reverse, List.getLast?_concat] at h
    cases h
    exact hd

theorem stripList_getLast_false {l : List Char} {c : Char}
    (h : (stripList l).getLast? = some c) : isPyWs c = false := by
  unfold stripList at h
  rw [List.getLast?_reverse] at h
  cases hx : (l.dropWhile isPyWs).reverse.dropWhile isPyWs with
  | nil => rw [hx] at h; simp at h
  | cons d t =>
    rw [hx] at h
    simp only [List.head?_cons] at h
    cases h
    exact dropWhile_head_false _ _ hx

theorem setAdd_nodup {s : List String} {x : String} (h : s.Nodup) :
    (setAdd s x).Nodup := by
  unfold setAdd
  split
  · exact h
  · rename_i hx
    simp [List.nodup_append, h, hx]

theorem classify_foldl_nodup :
    ∀ (urls : List String) (acc : List String × List String),
      acc.1.Nodup → ((urls.foldl classifyStep acc).1).Nodup := by
  intro urls
  induction urls with
  | nil => intro acc h; simpa using h
  | cons u rest ih =>
    intro acc h
    rw [List.foldl_cons]
    apply ih
    unfold classifyStep
    split
    · exact setAdd_nodup h
    · exact h

theorem batch_download_map_url (denv : String → DlEnv)
    (tenv : String → RunOutcome) (dirname : String) :
    ∀ (urls fs : List String),
      (batch_download denv tenv dirname urls fs).1.map DownloadResult.url
        = urls := by
  intro urls
  induction urls with
  | nil => intro fs; rfl
  | cons u rest ih =>
    intro fs
    rw [batch_download]
    split
    · simp [ih]
    · simp [ih]

theorem batch_download_entry_shape (denv : String → DlEnv)
    (tenv : String → RunOutcome) (dirname : String) :
    ∀ (urls fs : List String) (r : DownloadResult),
      r ∈ (batch_download denv tenv dirname urls fs).1 →
        (r.success = true → r.errorMessage = none) ∧
        (r.success = false → r.errorMessage.isSome = true) := by
  intro urls
  induction urls with
  | nil => intro fs r hr; simp [batch_download] at hr
  | cons u rest ih =>
    intro fs r hr
    rw [batch_download] at hr
    split at hr
    · simp only [List.mem_cons] at hr
      rcases hr with h | h
      · subst h; exact ⟨fun _ => rfl, by simp⟩
      · exact ih _ r h
    · simp only [List.mem_cons] at hr
      rcases hr with h | h
      · subst h; exact ⟨by simp, fun _ => rfl⟩
      · exact ih _ r h

/-! ### Claim theorems -/

/-- Claim C1: `batch_download` returns exactly one `DownloadResult` per
URL, in processing order — the result list maps back onto the input URL
list.  A successful item is recorded as `(url, true, none)`, a failing
item as `(url, false, message)` with the error's message, and no failure
aborts the batch.  Concretely, with the executor stubbed to fail on the
second of three URLs, the result sequence has length 3 with exactly one
`success = false` entry, and the successful items land at
`{sanitizedTitle}.mp3` under the fixed output directory. -/
theorem batch_download_one_result_per_url :
    (∀ (denv : String → DlEnv) (tenv : String → RunOutcome)
        (dirname : String) (urls fs : List String),
      (batch_download denv tenv dirname urls fs).1.map DownloadResult.url
          = urls
      ∧ ∀ r ∈ (batch_download denv tenv dirname urls fs).1,
          (r.success = true → r.errorMessage = none)
          ∧ (r.success = false → r.errorMessage.isSome = true))
    ∧ batch_download stubDenv stubTenv "out" stubUrls [] =
        ([⟨"https://youtu.be/u1", true, none⟩,
          ⟨"https://youtu.be/u2", false,
            some "Command returned non-zero exit status 1."⟩,
          ⟨"https://youtu.be/u3", true, none⟩],
         ["out/First Title.mp3", "out/Third Title.mp3"])
    ∧ (batch_download stubDenv stubTenv "out" stubUrls []).1.length = 3
    ∧ ((batch_download stubDenv stubTenv "out" stubUrls []).1.filter
        (fun r => r.success = false)).length = 1 := by
  refine ⟨fun denv tenv dirname urls fs =>
    ⟨batch_download_map_url denv tenv dirname urls fs,
     fun r hr => batch_download_entry_shape denv tenv dirname urls fs r hr⟩,
    rfl, rfl, rfl⟩

/-- Witness for C1: the failing stub entry, a member of the concrete
batch result, carries an error message. -/
theorem batch_download_one_result_per_url_witness :
    (⟨"https://youtu.be/u2", false,
      some "Command returned non-zero exit status 1."⟩ :
        DownloadResult).errorMessage.isSome = true :=
  ((batch_download_one_result_per_url.1 stubDenv stubTenv "out"
      stubUrls []).2
    ⟨"https://youtu.be/u2", false,
      some "Command returned non-zero exit status 1."⟩
    (by decide)).2 (by decide)

/-- Claim C2, counterexample: `process_url_file` does NOT return the
pair `(URLSet, invalidCount)`.  Two files with different invalid-line
counts (0 for `fsA`, 1 for `fsB`) produce identical return values, so
the returned value cannot carry the invalid count; the count is only
computed internally (and printed). -/
theorem process_url_file_return_lacks_count :
    process_url_file fsA "urls.txt" = process_url_file fsB "urls.txt"
    ∧ process_url_file_run fsA "urls.txt" = .ok ⟨["https://youtu.be/a"], []⟩
    ∧ process_url_file_run fsB "urls.txt" =
        .ok ⟨["https://youtu.be/a"], ["bad-url"]⟩ := ⟨rfl, rfl, rfl⟩

/-- Claim C2, amended: `process_url_file` returns only the set of
distinct valid URLs (duplicate-free); the invalid non-blank lines are
collected internally — their count is reported by printing, not
returned — and never abort the batch (any readable file yields a normal
return).  On the spec's four-line example the returned set has size 1,
namely `{"https://youtu.be/a"}`, with exactly 1 invalid line. -/
theorem process_url_file_set_semantics :
    (∀ (files : String → Option (List String)) (path : String)
        (r : ProcResult),
        process_url_file_run files path = .ok r → r.unique_urls.Nodup)
    ∧ (∀ (files : String → Option (List String)) (path : String)
        (fileLines : List String),
        files path = some fileLines →
          ∃ r, process_url_file_run files path = .ok r)
    ∧ process_url_file_run fsC "urls.txt" =
        .ok ⟨["https://youtu.be/a"], ["bad-url"]⟩
    ∧ process_url_file fsC "urls.txt" = .ok ["https://youtu.be/a"] := by
  refine ⟨?_, ?_, rfl, rfl⟩
  · intro files path r h
    unfold process_url_file_run at h
    cases hf : files path with
    | none => rw [hf] at h; simp at h
    | some fileLines =>
      rw [hf] at h
      simp only [Except.ok.injEq] at h
      subst h
      exact classify_foldl_nodup _ _ (by simp)
  · intro files path fileLines h
    unfold process_url_file_run
    rw [h]
    exact ⟨_, rfl⟩

/-- Witness for C2: the set returned on the spec example is
duplicate-free. -/
theorem process_url_file_set_semantics_witness :
    (["https://youtu.be/a"] : List String).Nodup :=
  process_url_file_set_semantics.1 fsC "urls.txt"
    ⟨["https://youtu.be/a"], ["bad-url"]⟩ rfl

/-- Claim C3: every character of the sanitizer's output lies in the
allowed set (letters, digits, space, `-`, `_`, `.`, `(`, `)`); the
output is a sublist of the input, so disallowed characters are dropped,
never replaced.  Concretely `"My Video!!"` sanitizes to `"My Video"`
and the destination filename is `"My Video.mp3"`. -/
theorem sanitizer_allowed_chars :
    (∀ (s : String) (c : Char), c ∈ (sanitizeTitle s).data →
        specAllowedChar c = true)
    ∧ (∀ s : String, List.Sublist (sanitizeTitle s).data s.data)
    ∧ sanitizeTitle "My Video!!" = "My Video"
    ∧ get_video_title ⟨0, "My Video!!", ""⟩ ++ ".mp3" = "My Video.mp3" := by
  refine ⟨?_, ?_, rfl, rfl⟩
  · intro s c hc
    replace hc : c ∈ s.data.filter (fun c => valid_chars.contains c) := hc
    have hmem : c ∈ valid_chars := by
      have h2 := (List.mem_filter.mp hc).2
      simpa using h2
    have hall : ∀ x ∈ valid_chars, specAllowedChar x = true := by decide
    exact hall c hmem
  · intro s
    exact List.filter_sublist s.data

/-- Witness for C3: the character `M` of the sanitized example output is
in the allowed set. -/
theorem sanitizer_allowed_chars_witness : specAllowedChar 'M' = true :=
  sanitizer_allowed_chars.1 "My Video!!" 'M' (by decide)

/-- Claim C4: the character-filtering step is idempotent —
`sanitize(sanitize(s)) = sanitize(s)` for every string. -/
theorem sanitizeTitle_idem : ∀ s : String,
    sanitizeTitle (sanitizeTitle s) = sanitizeTitle s := by
  intro s
  show String.mk ((s.data.filter fun c => valid_chars.contains c).filter
      fun c => valid_chars.contains c)
    = String.mk (s.data.filter fun c => valid_chars.contains c)
  rw [List.filter_filter]
  simp

/-- Claim C5: `is_valid_youtube_url` is a total Boolean function that
returns `true` exactly when the URL parses to a netloc containing a
recognized platform marker; a parse failure (modelled by `none`) yields
`false` rather than an exception.  The three spec examples evaluate as
stated. -/
theorem is_valid_youtube_url_spec :
    (∀ url : String, is_valid_youtube_url url = true ↔
        ∃ n, urlsplitNetloc url = some n ∧
          (strIn "youtube.com" n || strIn "youtu.be" n) = true)
    ∧ is_valid_youtube_url "https://youtu.be/abc123" = true
    ∧ is_valid_youtube_url "https://example.com/x" = false
    ∧ is_valid_youtube_url "not a url" = false := by
  refine ⟨?_, rfl, rfl, rfl⟩
  intro url
  cases h : urlsplitNetloc url with
  | none => simp [is_valid_youtube_url, h]
  | some m => simp [is_valid_youtube_url, h]

/-- Witness for C5: the characterization applied at the first spec
example. -/
theorem is_valid_youtube_url_spec_witness :
    is_valid_youtube_url "https://youtu.be/abc123" = true :=
  (is_valid_youtube_url_spec.1 "https://youtu.be/abc123").mpr
    ⟨"youtu.be", rfl, rfl⟩

/-- Claim C6: a missing path makes `process_url_file` fail with the
not-found error before any content is read; blank (empty or
whitespace-only) lines contribute nothing — deleting one leaves the
outcome unchanged — and every line passed to the validator is a trimmed
non-blank line of the file (no leading or trailing whitespace). -/
theorem process_url_file_notfound_blanks :
    (∀ (files : String → Option (List String)) (path : String),
        files path = none →
          process_url_file_run files path =
            .error (.fileNotFound ("File not found: " ++ path)))
    ∧ (∀ (files1 files2 : String → Option (List String)) (path : String)
        (pre post : List String) (b : String),
        (pyStrip b).isEmpty = true →
        files1 path = some (pre ++ b :: post) →
        files2 path = some (pre ++ post) →
        process_url_file_run files1 path = process_url_file_run files2 path)
    ∧ (∀ (fileLines : List String) (u : String),
        u ∈ consideredUrls fileLines →
          (∃ l, l ∈ fileLines ∧ u = pyStrip l) ∧ u ≠ "" ∧
          (∀ c, u.data.head? = some c → isPyWs c = false) ∧
          (∀ c, u.data.getLast? = some c → isPyWs c = false)) := by
  refine ⟨?_, ?_, ?_⟩
  · intro files path h
    unfold process_url_file_run
    rw [h]
  · intro f1 f2 path pre post b hb h1 h2
    unfold process_url_file_run
    rw [h1, h2]
    have hc : consideredUrls (pre ++ b :: post)
        = consideredUrls (pre ++ post) := by
      simp [consideredUrls, hb]
    dsimp only
    rw [hc]
  · intro fileLines u hu
    simp only [consideredUrls, List.mem_filter, List.mem_map] at hu
    obtain ⟨⟨l, hl, hlu⟩, hne⟩ := hu
    subst hlu
    refine ⟨⟨l, hl, rfl⟩, ?_, ?_, ?_⟩
    · intro h0
      rw [h0] at hne
      exact absurd hne (by decide)
    · intro c hc
      exact stripList_head_false hc
    · intro c hc
      exact stripList_getLast_false hc

/-- Witness for C6: removing the blank line from the spec example file
does not change the reader's outcome. -/
theorem process_url_file_notfound_blanks_witness :
    process_url_file_run fsC "urls.txt"
      = process_url_file_run fsD "urls.txt" :=
  process_url_file_notfound_blanks.2.1 fsC fsD "urls.txt"
    ["https://youtu.be/a"] ["bad-url", "https://youtu.be/a"] "" (by decide)
    rfl rfl

/-- Claim C7: whenever the external tool exits nonzero, `download_audio`
fails with `CalledProcessError` (the spec's `ExternalToolError`)
carrying the captured stderr, the filesystem is returned unchanged, and
in particular no file appears at the destination path. -/
theorem download_audio_nonzero_exit :
    ∀ (env : DlEnv) (fs : List String) (url dest : String),
      env.run.exitCode ≠ 0 →
        download_audio env fs url dest =
          (.error (.calledProcessError env.run.exitCode env.run.stdout
            env.run.stderr), fs)
        ∧ (dest ∉ fs → dest ∉ (download_audio env fs url dest).2) := by
  intro env fs url dest h
  have h1 : download_audio env fs url dest =
      (.error (.calledProcessError env.run.exitCode env.run.stdout
        env.run.stderr), fs) := by
    unfold download_audio
    rw [if_pos h]
  exact ⟨h1, fun hd => by rw [h1]; exact hd⟩

/-- Witness for C7: a concrete exit-1 run fails with the captured
stderr and leaves the (empty) filesystem unchanged. -/
theorem download_audio_nonzero_exit_witness :
    download_audio ⟨⟨1, "so", "se"⟩, [], 5⟩ [] "u" "dest" =
      (.error (.calledProcessError 1 "so" "se"), []) :=
  (download_audio_nonzero_exit ⟨⟨1, "so", "se"⟩, [], 5⟩ [] "u" "dest"
    (by decide)).1

/-- Claim C8: when the metadata invocation exits nonzero,
`get_video_title` returns the literal fallback `"video"` instead of
raising, so the destination filename is `video.mp3`; a full batch item
with a failing title lookup but working download succeeds and produces
`out/video.mp3`. -/
theorem get_video_title_fallback :
    (∀ r : RunOutcome, r.exitCode ≠ 0 → get_video_title r = "video")
    ∧ get_video_title ⟨1, "", "boom"⟩ ++ ".mp3" = "video.mp3"
    ∧ batch_download (fun _ => okDlEnv) (fun _ => ⟨1, "", "err"⟩) "out"
        ["https://youtu.be/x"] [] =
      ([⟨"https://youtu.be/x", true, none⟩], ["out/video.mp3"]) := by
  refine ⟨?_, rfl, rfl⟩
  intro r h
  unfold get_video_title
  rw [if_neg h]

/-- Witness for C8: a concrete failing title lookup yields `"video"`. -/
theorem get_video_title_fallback_witness :
    get_video_title ⟨1, "", "boom"⟩ = "video" :=
  get_video_title_fallback.1 ⟨1, "", "boom"⟩ (by decide)

/-- Claim C9: `main` never propagates an error — for every environment
it returns normally with exit code 0, and when the body raises, the
error is turned into the printed handler message. -/
theorem main_exits_zero :
    ∀ env : MainEnv,
      (main env).exitCode = 0
      ∧ (∀ e, mainBody env = .error e →
          (main env).errorOutput = some (handlerMessage e)) := by
  intro env
  constructor
  · unfold main
    cases mainBody env <;> rfl
  · intro e he
    unfold main
    rw [he]

/-- Witness for C9: with the dependency missing, the run exits 0 and
prints the environment-error message. -/
theorem main_exits_zero_witness :
    (main noDepEnv).exitCode = 0 ∧ (main noDepEnv).errorOutput =
      some (handlerMessage (.environmentError
        ("Required programs not found in PATH: yt-dlp\n" ++
         "Please ensure they are installed and added to your system's PATH."))) :=
  ⟨(main_exits_zero noDepEnv).1, (main_exits_zero noDepEnv).2 _ rfl⟩

/-- Claim C10: the validator tests the marker by substring containment
in the parsed netloc, so any URL whose netloc merely contains
`"youtube.com"` or `"youtu.be"` is accepted — including the look-alike
hosts `fakeyoutube.com` and `youtube.com.evil.example`. -/
theorem is_valid_substring_acceptance :
    (∀ (url n : String), urlsplitNetloc url = some n →
        (strIn "youtube.com" n || strIn "youtu.be" n) = true →
        is_valid_youtube_url url = true)
    ∧ is_valid_youtube_url "https://fakeyoutube.com/x" = true
    ∧ is_valid_youtube_url "https://youtube.com.evil.example/p" = true := by
  refine ⟨?_, rfl, rfl⟩
  intro url n h hm
  simp [is_valid_youtube_url, h, hm]

/-- Witness for C10: the general containment rule applied to the
look-alike host. -/
theorem is_valid_substring_acceptance_witness :
    is_valid_youtube_url "https://fakeyoutube.com/x" = true :=
  is_valid_substring_acceptance.1 "https://fakeyoutube.com/x"
    "fakeyoutube.com" rfl rfl

end Vid2Aud
